import Mathlib

/-!
Verification of the openfda-api repository: a shallow embedding of the
query-translation layer (`src/openfda_mcp_server.py`) and of the JSON-RPC
dispatcher and tool handler (`src/openfda_server.py`), together with theorems
settling the specification claims about them.

String parameters that Python treats by truthiness (`if drug:`) are modelled
as `Option String`, where both `none` (Python `None`) and `some ""` are
falsy.  Python string primitives (`strip`, `in`, `split`, slicing) are
modelled by structurally recursive functions on the character list of a
`String`, so concrete runs reduce inside the kernel; the regex
`re.sub(r"[^\d]", "", s)` is modelled by a filter on `Char.isDigit`.
-/

namespace OpenFDA

/-- Embedding of Python `s.strip()`: drop whitespace from both ends. -/
def pyStrip (s : String) : String :=
  ⟨((s.data.dropWhile Char.isWhitespace).reverse.dropWhile Char.isWhitespace).reverse⟩

/-- Embedding of Python `c in s` for a single character `c`. -/
def pyContains (s : String) (c : Char) : Bool := s.data.contains c

/-- Embedding of Python `s[:n]` on a string. -/
def pySlice (s : String) (n : Nat) : String := ⟨s.data.take n⟩

/-- Helper for `pySplitWs`: accumulate the current word (reversed) while
scanning. -/
def wordsAux (acc : List Char) : List Char → List String
  | [] => if acc.isEmpty then [] else [⟨acc.reverse⟩]
  | c :: rest =>
    if c.isWhitespace then
      if acc.isEmpty then wordsAux [] rest else ⟨acc.reverse⟩ :: wordsAux [] rest
    else wordsAux (c :: acc) rest

/-- Embedding of Python `s.split()` with no argument: split on whitespace
runs, discarding empty pieces. -/
def pySplitWs (s : String) : List String := wordsAux [] s.data

/-- `pat` occurs as a contiguous substring of `l`. -/
def hasSubstr (pat : List Char) : List Char → Bool
  | [] => pat.isEmpty
  | c :: rest => pat.isPrefixOf (c :: rest) || hasSubstr pat rest

/-- Embedding of Python `sep.join(parts)` used by `_build_search`
(`" OR ".join(...)`, `" AND ".join(...)`). -/
def joinSep (sep : String) : List String → String
  | [] => ""
  | [a] => a
  | a :: b :: rest => a ++ sep ++ joinSep sep (b :: rest)

/-- Embedding of Python `list(dict.fromkeys(xs))`: deduplication that keeps
the first occurrence of each element, preserving insertion order. -/
def pyDedupAux (seen : List String) : List String → List String
  | [] => []
  | x :: xs => if x ∈ seen then pyDedupAux seen xs else x :: pyDedupAux (x :: seen) xs

def pyDedup (l : List String) : List String := pyDedupAux [] l

/-- Embedding of `re.sub(r"[^\d]", "", s)` in `_normalize_ndc`: keep only the
digit characters of `s`. -/
def digitCore (s : String) : String := ⟨s.data.filter Char.isDigit⟩

/-- Embedding of the f-string
`f"\x7bclean_ndc[:5]\x7d-\x7bclean_ndc[5:9]\x7d-\x7bclean_ndc[9:]\x7d"`
in `_normalize_ndc` (Python slicing on the character sequence). -/
def hyphenate (clean : List Char) : String :=
  ⟨clean.take 5 ++ '-' :: ((clean.drop 5).take 4 ++ '-' :: clean.drop 9)⟩

/-- The candidate list `_normalize_ndc` builds from the trimmed input `t`
before deduplication: the literal trimmed input, then, if `t` contains a
hyphen, the bare digit core when it has at least 9 digits; otherwise the
5-4-1 re-hyphenation for a 10-digit core or the 5-4-2 re-hyphenation for an
11-digit core (both arise from the same `[:5]/[5:9]/[9:]` slicing). -/
def synthFormats (t : String) : List String :=
  if pyContains t '-' then
    if 9 ≤ (digitCore t).length then [t, digitCore t] else [t]
  else
    if (digitCore t).length = 10 then [t, hyphenate (digitCore t).data]
    else if (digitCore t).length = 11 then [t, hyphenate (digitCore t).data]
    else [t]

/-- Embedding of `_normalize_ndc` (src/openfda_mcp_server.py, lines 56-83):
empty input yields no candidates; otherwise the input is trimmed, candidate
formats are synthesized, deduplicated preserving order, and capped at 3. -/
def normalizeNdc (ndcInput : String) : List String :=
  if ndcInput = "" then [] else (pyDedup (synthFormats (pyStrip ndcInput))).take 3

/-- Python truthiness of an optional string argument: `None` and `""` are
falsy. -/
def truthy : Option String → Bool
  | none => false
  | some s => !(s == "")

/-- The three drug-name fields of `_build_search`. -/
def drugFields : List String :=
  ["openfda.brand_name", "openfda.generic_name", "openfda.substance_name"]

/-- One drug-name atom of `_build_search`:
`f"\x7bfield\x7d.exact:\"\x7bdrug\x7d\""` when `exact` else
`f"\x7bfield\x7d:\"\x7bdrug\x7d\""`. -/
def drugAtom (exact : Bool) (drug field : String) : String :=
  if exact then field ++ ".exact:\"" ++ drug ++ "\"" else field ++ ":\"" ++ drug ++ "\""

/-- The parenthesized OR-joined drug clause of `_build_search` (built the
same way in both the NDC branch and the non-NDC branch of the source). -/
def drugClause (drug : String) (exact : Bool) : String :=
  "(" ++ joinSep " OR " (drugFields.map (drugAtom exact drug)) ++ ")"

/-- The parenthesized OR-joined NDC clause of `_build_search`: one
`openfda.product_ndc:"..."` atom per candidate format. -/
def ndcClause (formats : List String) : String :=
  "(" ++ joinSep " OR " (formats.map (fun f => "openfda.product_ndc:\"" ++ f ++ "\"")) ++ ")"

/-- One simple filter atom (`field:"value"`) contributed when the optional
argument is truthy, as in the `if manufacturer: ... if route:` chains. -/
def optAtom (field : String) (o : Option String) : List String :=
  match o with
  | none => []
  | some s => if s = "" then [] else [field ++ ":\"" ++ s ++ "\""]

/-- The `additional_filters` list of `_build_search`: manufacturer, dosage
form and route atoms in that order, each included only when truthy. -/
def additionalFilters (manufacturer dosage_form route : Option String) : List String :=
  optAtom "openfda.manufacturer_name" manufacturer ++
    optAtom "openfda.dosage_form" dosage_form ++
    optAtom "openfda.route" route

/-- The non-NDC tail of `_build_search` (source lines 138-162): drug clause
if truthy, then the simple filters, AND-joined; the wildcard when no part is
present. -/
def nonNdcSearch (drug manufacturer dosage_form route : Option String) (exact : Bool) : String :=
  if ((if truthy drug then [drugClause (drug.getD "") exact] else []) ++
      additionalFilters manufacturer dosage_form route).isEmpty then "*:*"
  else
    joinSep " AND "
      ((if truthy drug then [drugClause (drug.getD "") exact] else []) ++
        additionalFilters manufacturer dosage_form route)

/-- Embedding of `_build_search` (src/openfda_mcp_server.py, lines 87-162).
When `ndc` is truthy and normalizes to a non-empty candidate list, the NDC
clause comes first; with no other filter and no drug it is returned alone,
otherwise it is AND-joined with the drug clause (if truthy) and the simple
filters.  When `ndc` is falsy, or its candidate list is empty, control falls
through to the original non-NDC logic. -/
def buildSearch (drug manufacturer dosage_form route ndc : Option String) (exact : Bool) : String :=
  if truthy ndc then
    if (normalizeNdc (ndc.getD "")).isEmpty then
      nonNdcSearch drug manufacturer dosage_form route exact
    else
      if (additionalFilters manufacturer dosage_form route).isEmpty && !(truthy drug) then
        ndcClause (normalizeNdc (ndc.getD ""))
      else
        joinSep " AND "
          (ndcClause (normalizeNdc (ndc.getD "")) ::
            ((if truthy drug then [drugClause (drug.getD "") exact] else []) ++
              additionalFilters manufacturer dosage_form route))
  else nonNdcSearch drug manufacturer dosage_form route exact

/-- An upstream drug-label record (the elements of the JSON `results` array).
The nested `openfda.*` arrays are optional (`none` models an absent key,
which both servers distinguish from a present-but-empty list), and the
top-level labeling-section arrays are modelled as an association list keyed
by section name. -/
structure DrugRecord where
  brand_name : Option (List String) := none
  generic_name : Option (List String) := none
  manufacturer_name : Option (List String) := none
  product_ndc : Option (List String) := none
  sections : List (String × List String) := []
deriving DecidableEq

/-- Python `rec.get(section, [])` on the top-level labeling sections. -/
def DrugRecord.getSection (r : DrugRecord) (sectionName : String) : List String :=
  (r.sections.lookup sectionName).getD []

/-- The parsed JSON body of an upstream reply; `results = none` models a body
with no `results` key (or a null one). -/
structure OpenfdaBody where
  results : Option (List DrugRecord)
deriving DecidableEq

/-- An upstream HTTP interaction as seen by one GET call: either a reply with
a status code and parsed body, or an exception raised by the transport
itself (timeout, connection failure), carrying its message. -/
inductive Upstream where
  | reply (status : Nat) (results : Option (List DrugRecord))
  | raise (msg : String)
deriving DecidableEq

/-- Abstract stand-in for the message of the `httpx.HTTPStatusError` that
`Response.raise_for_status` raises on a non-2xx status.  The exact text is a
property of the httpx library, not of this repository, so only its
dependence on the status code is modelled. -/
def statusErrorMessage (status : Nat) : String :=
  "HTTP status error " ++ toString status

/-- Embedding of `_fetch_openfda_with_logging` (src/openfda_mcp_server.py,
lines 41-53; `_fetch_openfda` is identical modulo logging): a 404 status is
rewritten to a body with an empty `results` list, any other non-2xx status
raises via `raise_for_status`, a 2xx reply is parsed and returned, and a
transport exception propagates. -/
def fetchOpenfdaWithLogging : Upstream → Except String OpenfdaBody
  | .raise m => .error m
  | .reply status results =>
    if status = 404 then .ok ⟨some []⟩
    else if 200 ≤ status ∧ status < 300 then .ok ⟨results⟩
    else .error (statusErrorMessage status)

/-- The query parameters each tool sends upstream (`params = ...` in the
handlers): the `search` expression and the `limit`. -/
structure Params where
  search : String
  limit : Int
deriving DecidableEq

/-- The limit clamp of the openfda_mcp_server handlers:
`max(1, min(limit, 10))` (src/openfda_mcp_server.py, lines 179 and 208). -/
def clampedLimit (limit : Int) : Int := max 1 (min limit 10)

/-- The `params` dict built by every openfda_mcp_server tool handler before
its upstream call (src/openfda_mcp_server.py, lines 178-179 and 207-208). -/
def mcpSentParams (drug manufacturer dosage_form route ndc : Option String)
    (limit : Int) (exact : Bool) : Params :=
  ⟨buildSearch drug manufacturer dosage_form route ndc exact, clampedLimit limit⟩

/-- The structured output record of the `get_drug_indications` tool of
openfda_mcp_server (the `DrugInfo` pydantic model). -/
structure DrugInfo where
  brand_names : List String
  generic_names : List String
  manufacturer : List String
  indications : List String
  ndc_codes : List String
deriving DecidableEq

/-- The result-shaping loop of `get_drug_indications` in openfda_mcp_server
(lines 181-193): empty or absent `results` yields `[]`; otherwise one
`DrugInfo` per record, in order, with each `openfda.*` array defaulting to
`[]` when absent. -/
def indicationsShape (data : OpenfdaBody) : List DrugInfo :=
  match data.results with
  | none => []
  | some recs =>
    if recs.isEmpty then []
    else
      recs.map (fun r =>
        ⟨r.brand_name.getD [], r.generic_name.getD [], r.manufacturer_name.getD [],
          r.getSection "indications_and_usage", r.product_ndc.getD []⟩)

/-- The `get_drug_indications` tool of openfda_mcp_server, given the outcome
of its single upstream GET: an exception from the fetch propagates out of
the handler, a parsed body is shaped into `DrugInfo` records. -/
def mcpGetDrugIndications (up : Upstream) : Except String (List DrugInfo) :=
  (fetchOpenfdaWithLogging up).map indicationsShape

/-- The section names of the six `make_simple_tool` instances
(src/openfda_mcp_server.py, lines 220-254). -/
def simpleSections : List String :=
  ["dosage_and_administration", "use_in_specific_populations",
   "how_supplied_storage_and_handling", "warnings_and_precautions",
   "clinical_pharmacology", "description"]

/-- The result-shaping loop of the `make_simple_tool` template (lines
210-216): empty or absent `results` yields `[]`; otherwise the loop
`out.extend(rec.get(section, []))` over the records. -/
def simpleToolShape (sectionName : String) (data : OpenfdaBody) : List String :=
  match data.results with
  | none => []
  | some recs =>
    if recs.isEmpty then []
    else recs.foldl (fun out r => out ++ r.getSection sectionName) []

/-- A `make_simple_tool` tool, given the outcome of its single upstream
GET. -/
def mcpSimpleTool (sectionName : String) (up : Upstream) : Except String (List String) :=
  (fetchOpenfdaWithLogging up).map (simpleToolShape sectionName)

/-! ## Embedding of src/openfda_server.py -/

/-- One `{"type": "text", "text": ...}` content item of an MCP tool
result. -/
structure TextContent where
  type : String
  text : String
deriving DecidableEq

/-- An MCP tool result: the `{"content": [...]}` object returned by
`MCPServer.get_drug_indications`. -/
structure ToolResult where
  content : List TextContent
deriving DecidableEq

/-- The `arguments` dict of a `tools/call`, as read by
`MCPServer.get_drug_indications`: each `arguments.get(..., default)` is
modelled by an `Option` with the corresponding default applied at use
site. -/
structure ServerArgs where
  drug_name : Option String := none
  limit : Option Int := none
  exact_match : Option Bool := none
deriving DecidableEq

/-- The search query built by `MCPServer.get_drug_indications`
(src/openfda_server.py, lines 179-182): two `.exact` atoms when
`exact_match`, three plain atoms otherwise. -/
def serverSearchQuery (drug_name : String) (exact : Bool) : String :=
  if exact then
    "openfda.brand_name.exact:\"" ++ drug_name ++
      "\" OR openfda.generic_name.exact:\"" ++ drug_name ++ "\""
  else
    "openfda.brand_name:\"" ++ drug_name ++ "\" OR openfda.generic_name:\"" ++
      drug_name ++ "\" OR openfda.substance_name:\"" ++ drug_name ++ "\""

/-- What `client.get(...)` followed by `response.raise_for_status()` does in
`MCPServer.get_drug_indications`: a transport exception propagates, a
non-2xx status raises an `HTTPStatusError`, a 2xx reply yields the parsed
`results`. -/
def runFetch : Upstream → Except String (Option (List DrugRecord))
  | .raise m => .error m
  | .reply status results =>
    if 200 ≤ status ∧ status < 300 then .ok results
    else .error (statusErrorMessage status)

/-- The indication cleanup of the formatting loop (lines 225-227): collapse
whitespace runs via `" ".join(indication.split())`, then hard-truncate to
1000 characters with an ellipsis. -/
def cleanIndication (ind : String) : String :=
  if (joinSep " " (pySplitWs ind)).length > 1000
  then pySlice (joinSep " " (pySplitWs ind)) 1000 ++ "..."
  else joinSep " " (pySplitWs ind)

/-- One iteration of the result-formatting loop of
`MCPServer.get_drug_indications` (lines 208-237), for result number `i`.
Note the `openfda.*` defaults here are `["Unknown"]`, unlike the `[]`
defaults used in openfda_mcp_server. -/
def formatRecord (i : Nat) (r : DrugRecord) : String :=
  "--- Result " ++ toString i ++ " ---\n" ++
  "Brand Name(s): " ++ joinSep ", " ((r.brand_name.getD ["Unknown"]).take 3) ++ "\n" ++
  "Generic Name(s): " ++ joinSep ", " ((r.generic_name.getD ["Unknown"]).take 3) ++ "\n" ++
  "Manufacturer: " ++ joinSep ", " ((r.manufacturer_name.getD ["Unknown"]).take 2) ++ "\n" ++
  (if (r.getSection "indications_and_usage").isEmpty then
    "\nINDICATIONS AND USAGE: Not available in label\n"
  else
    "\nINDICATIONS AND USAGE:\n" ++
      String.join (((r.getSection "indications_and_usage").take 2).map
        (fun ind => cleanIndication ind ++ "\n\n"))) ++
  (if (r.product_ndc.getD []).isEmpty then ""
   else "NDC Code(s): " ++ joinSep ", " ((r.product_ndc.getD []).take 3) ++ "\n") ++
  "\n"

/-- The `for i, result in enumerate(data["results"], 1)` loop, numbering
records from `i`. -/
def formatRecords (i : Nat) : List DrugRecord → String
  | [] => ""
  | r :: rest => formatRecord i r ++ formatRecords (i + 1) rest

/-- The full `result_text` of a successful lookup (lines 206-237). -/
def formatResultText (drug_name : String) (recs : List DrugRecord) : String :=
  "Found " ++ toString recs.length ++ " FDA drug label(s) for \x27" ++ drug_name ++
    "\x27:\n\n" ++ formatRecords 1 recs

/-- The zero-result message of `MCPServer.get_drug_indications` (lines
197-203). -/
def noResultsText (drug_name : String) : String :=
  "No FDA labeling data found for drug: \x27" ++ drug_name ++ "\x27"

/-- Embedding of `MCPServer.get_drug_indications` (src/openfda_server.py,
lines 163-253).  The first component is the upstream request it issues
(`none` when it returns before making any HTTP call); the second is the tool
result.  A missing or whitespace-only `drug_name` short-circuits to the
required-parameter error before the `try` block; inside it, any raised
exception (transport failure or non-2xx status, including 404 via
`raise_for_status`) is caught and surfaced as an `Error: ...` text
payload. -/
def serverGetDrugIndications (args : ServerArgs) (up : Upstream) :
    Option Params × ToolResult :=
  if pyStrip (args.drug_name.getD "") = "" then
    (none, ⟨[⟨"text", "Error: drug_name parameter is required"⟩]⟩)
  else
    (some ⟨serverSearchQuery (pyStrip (args.drug_name.getD "")) (args.exact_match.getD false),
        min (args.limit.getD 3) 10⟩,
      match runFetch up with
      | .error m => ⟨[⟨"text", "Error: " ++ m⟩]⟩
      | .ok none => ⟨[⟨"text", noResultsText (pyStrip (args.drug_name.getD ""))⟩]⟩
      | .ok (some recs) =>
        if recs.isEmpty then ⟨[⟨"text", noResultsText (pyStrip (args.drug_name.getD ""))⟩]⟩
        else ⟨[⟨"text", formatResultText (pyStrip (args.drug_name.getD "")) recs⟩]⟩)

/-- A tool descriptor as returned by `MCPServer.get_tools` (the JSON input
schema literal is a static constant carried verbatim to the client; no claim
concerns its contents, so only name and description are modelled). -/
structure ToolDescriptor where
  name : String
  description : String
deriving DecidableEq

def getTools : List ToolDescriptor :=
  [⟨"get_drug_indications", "Get FDA-approved indications and usage information for a drug"⟩]

/-- The `serverInfo` object of the `initialize` reply. -/
structure ServerInfo where
  name : String
  version : String
deriving DecidableEq

/-- The `result` member of a successful JSON-RPC response from
`MCPServer.handle_message` (the `capabilities` member is the constant
`\x7btools: \x7b\x7d\x7d` and carries no data). -/
inductive RpcResult where
  | initializeResult (protocolVersion : String) (info : ServerInfo)
  | toolsList (tools : List ToolDescriptor)
  | toolResult (r : ToolResult)
deriving DecidableEq

/-- The `error` member of a JSON-RPC error response. -/
structure RpcError where
  code : Int
  message : String
deriving DecidableEq

inductive RpcOutcome where
  | result (r : RpcResult)
  | error (e : RpcError)
deriving DecidableEq

/-- A JSON-RPC response object produced by `handle_message` (its constant
`"jsonrpc": "2.0"` member is omitted). -/
structure RpcResponse where
  id : Option Int
  outcome : RpcOutcome
deriving DecidableEq

/-- An incoming JSON-RPC message as `handle_message` reads it: `id` absent
means a notification; `toolName` is `params.get("name")`, consulted only for
`tools/call`. -/
structure RpcMessage where
  id : Option Int := none
  method : Option String := none
  toolName : Option String := none
deriving DecidableEq

/-- Outcome of `await self.get_drug_indications(arguments)` inside the
`tools/call` branch: its returned value, or an exception escaping it (the
code before its inner `try`, e.g. `arguments.get("drug_name", "").strip()`
on a non-string argument, can raise). -/
inductive ToolOutcome where
  | value (r : ToolResult)
  | raised (msg : String)
deriving DecidableEq

/-- Python `f"...\x7bx\x7d"` interpolation of an optional string: `None`
prints as `"None"`. -/
def optStr : Option String → String
  | none => "None"
  | some s => s

/-- Embedding of `MCPServer.handle_message` (src/openfda_server.py, lines
84-161).  The method chain is `initialize` / `notifications/initialized`
(the only branch returning no response) / `tools/list` / `tools/call` /
unknown-method error; the surrounding `try/except` turns any exception
raised while processing into a `-32603` response that echoes
`message.get("id")` — also when `id` is absent.  The `self.initialized` and
`self.client_info` assignments in the `initialize` branch are write-only
state (no branch of the dispatcher reads them), so they are not modelled. -/
def handleMessage (msg : RpcMessage) (callOutcome : ToolOutcome) : Option RpcResponse :=
  if msg.method = some "initialize" then
    some ⟨msg.id, .result (.initializeResult "2024-11-05" ⟨"openfda-mcp-server", "1.0.0"⟩)⟩
  else if msg.method = some "notifications/initialized" then
    none
  else if msg.method = some "tools/list" then
    some ⟨msg.id, .result (.toolsList getTools)⟩
  else if msg.method = some "tools/call" then
    if msg.toolName = some "get_drug_indications" then
      match callOutcome with
      | .value r => some ⟨msg.id, .result (.toolResult r)⟩
      | .raised e => some ⟨msg.id, .error ⟨-32603, "Internal error: " ++ e⟩⟩
    else
      some ⟨msg.id, .error ⟨-32601, "Unknown tool: " ++ optStr msg.toolName⟩⟩
  else
    some ⟨msg.id, .error ⟨-32601, "Method not found: " ++ optStr msg.method⟩⟩

/-! ## Helper lemmas -/

/-- Whatever branch of `_normalize_ndc` is taken, the candidate list starts
with the literal trimmed input. -/
theorem synthFormats_cons (t : String) : ∃ r, synthFormats t = t :: r := by
  unfold synthFormats
  split
  · split
    · exact ⟨_, rfl⟩
    · exact ⟨_, rfl⟩
  · split
    · exact ⟨_, rfl⟩
    · split
      · exact ⟨_, rfl⟩
      · exact ⟨_, rfl⟩

/-- For non-empty raw input, the first candidate of `_normalize_ndc` is the
trimmed literal input. -/
theorem normalizeNdc_head (x : String) (hx : x ≠ "") :
    (normalizeNdc x).head? = some (pyStrip x) := by
  obtain ⟨r, hr⟩ := synthFormats_cons (pyStrip x)
  simp [normalizeNdc, hx, hr, pyDedup, pyDedupAux]

/-- For non-empty raw input, `_normalize_ndc` returns at least one
candidate. -/
theorem normalizeNdc_ne_nil (x : String) (hx : x ≠ "") : normalizeNdc x ≠ [] := by
  intro h
  have hh := normalizeNdc_head x hx
  rw [h] at hh
  exact Option.noConfusion hh

/-- The synthesized candidate of `_normalize_ndc` decomposes around its two
hyphens, and the three digit segments recompose the digit core. -/
theorem hyphenate_decomp (c : List Char) :
    (hyphenate c).data = c.take 5 ++ ('-' :: (c.drop 5).take 4) ++ ('-' :: c.drop 9) ∧
    c.take 5 ++ ((c.drop 5).take 4 ++ c.drop 9) = c := by
  constructor
  · simp [hyphenate]
  · have h9 : c.drop 9 = (c.drop 5).drop 4 := by rw [List.drop_drop]
    rw [h9, List.take_append_drop, List.take_append_drop]

/-! ## Claims about the NDC normalizer (C1, C6, C8) -/

/-- C1 (counterexample): on the raw input `"0002143380"`, whose digit core
has length exactly 10, `_normalize_ndc` synthesizes only the single 5-4-1
candidate `"00021-4338-0"`; none of the claimed 4-3-3, 5-3-2, 5-2-3
patterns of that core appears among the candidates. -/
theorem c1_counterexample :
    (digitCore (pyStrip "0002143380")).length = 10 ∧
    normalizeNdc "0002143380" = ["0002143380", "00021-4338-0"] ∧
    "0002-143-380" ∉ normalizeNdc "0002143380" ∧
    "00021-433-80" ∉ normalizeNdc "0002143380" ∧
    "00021-43-380" ∉ normalizeNdc "0002143380" := by decide

/-- C1 (amended): for every raw input whose trimmed form contains no hyphen
and whose digit-only core has length exactly 10 or 11, `_normalize_ndc`
synthesizes exactly one additional hyphenated candidate besides the trimmed
literal input, and that candidate follows the segment pattern
5-4-(core length - 9) — i.e. 5-4-1 for a 10-digit core and 5-4-2 for an
11-digit core, never 4-3-3, 5-3-2, 5-2-3, 5-3-3 or 4-4-3. -/
theorem c1_amended (x : String) (hx : x ≠ "")
    (hh : pyContains (pyStrip x) '-' = false)
    (hlen : (digitCore (pyStrip x)).length = 10 ∨ (digitCore (pyStrip x)).length = 11) :
    normalizeNdc x = (pyDedup [pyStrip x, hyphenate (digitCore (pyStrip x)).data]).take 3 ∧
    ∃ a b c,
      (hyphenate (digitCore (pyStrip x)).data).data = a ++ ('-' :: b) ++ ('-' :: c) ∧
      a.length = 5 ∧ b.length = 4 ∧
      c.length = (digitCore (pyStrip x)).length - 9 ∧
      a ++ (b ++ c) = (digitCore (pyStrip x)).data := by
  constructor
  · rcases hlen with h | h <;> simp [normalizeNdc, hx, synthFormats, hh, h]
  · have hl : ((digitCore (pyStrip x)).data).length = 10 ∨
        ((digitCore (pyStrip x)).data).length = 11 := hlen
    refine ⟨(digitCore (pyStrip x)).data.take 5,
      ((digitCore (pyStrip x)).data.drop 5).take 4,
      (digitCore (pyStrip x)).data.drop 9,
      (hyphenate_decomp _).1, ?_, ?_, ?_, ?_⟩
    · rw [List.length_take]
      omega
    · rw [List.length_take, List.length_drop]
      omega
    · rw [List.length_drop]
      rfl
    · exact (hyphenate_decomp _).2

/-- C1 (witness): the amended theorem instantiated at the 10-digit raw input
`"0002143380"`. -/
theorem c1_amended_witness :
    normalizeNdc "0002143380" =
      (pyDedup [pyStrip "0002143380", hyphenate (digitCore (pyStrip "0002143380")).data]).take 3 ∧
    ∃ a b c,
      (hyphenate (digitCore (pyStrip "0002143380")).data).data = a ++ ('-' :: b) ++ ('-' :: c) ∧
      a.length = 5 ∧ b.length = 4 ∧
      c.length = (digitCore (pyStrip "0002143380")).length - 9 ∧
      a ++ (b ++ c) = (digitCore (pyStrip "0002143380")).data :=
  c1_amended "0002143380" (by decide) (by decide) (Or.inl (by decide))

/-- C6 (counterexample): the hyphenated input `"1234-5678-9"` has a digit
core of length 9 — neither 10 nor 11 — yet `_normalize_ndc` still adds the
synthesized candidate `"123456789"`; and the whitespace-only input `" "`
trims to the empty string yet yields the singleton `[""]`, not the empty
set. -/
theorem c6_counterexample :
    (digitCore (pyStrip "1234-5678-9")).length = 9 ∧
    normalizeNdc "1234-5678-9" = ["1234-5678-9", "123456789"] ∧
    pyStrip " " = "" ∧
    normalizeNdc " " = [""] := by decide

/-- C6 (amended): the result of `_normalize_ndc` is empty exactly when the
raw (untrimmed) input is the empty string.  For a non-empty input without
hyphens whose digit core has length neither 10 nor 11, no synthesized
candidate is added: the result is exactly the trimmed literal input.  For a
non-empty input containing a hyphen, however, the bare digit core is
appended as a synthesized candidate whenever it has at least 9 digits,
regardless of whether its length is 10 or 11. -/
theorem c6_amended (x : String) :
    (normalizeNdc x = [] ↔ x = "") ∧
    (x ≠ "" → pyContains (pyStrip x) '-' = false →
      (digitCore (pyStrip x)).length ≠ 10 → (digitCore (pyStrip x)).length ≠ 11 →
      normalizeNdc x = [pyStrip x]) ∧
    (x ≠ "" → pyContains (pyStrip x) '-' = true → 9 ≤ (digitCore (pyStrip x)).length →
      normalizeNdc x = (pyDedup [pyStrip x, digitCore (pyStrip x)]).take 3) := by
  refine ⟨⟨fun h => ?_, fun h => by simp [normalizeNdc, h]⟩, ?_, ?_⟩
  · by_contra hx
    exact normalizeNdc_ne_nil x hx h
  · intro hx hh h10 h11
    simp [normalizeNdc, hx, synthFormats, hh, h10, h11, pyDedup, pyDedupAux]
  · intro hx hh h9
    simp [normalizeNdc, hx, synthFormats, hh, h9]

/-- C6 (witness): the amended theorem instantiated at the hyphen-free
9-digit input `"123456789"` (second clause) and at the hyphenated input
`"1234-5678-9"` (third clause). -/
theorem c6_amended_witness :
    normalizeNdc "123456789" = [pyStrip "123456789"] ∧
    normalizeNdc "1234-5678-9" =
      (pyDedup [pyStrip "1234-5678-9", digitCore (pyStrip "1234-5678-9")]).take 3 :=
  ⟨(c6_amended "123456789").2.1 (by decide) (by decide) (by decide) (by decide),
   (c6_amended "1234-5678-9").2.2 (by decide) (by decide) (by decide)⟩

/-- C8: NDC normalization is a deterministic function, and for every
non-empty raw input the first candidate of `_normalize_ndc` is the trimmed
literal input. -/
theorem c8_literal_first (x : String) (hx : x ≠ "") :
    (normalizeNdc x).head? = some (pyStrip x) :=
  normalizeNdc_head x hx

/-- C8 (witness): the spec scenario — the raw input `"0002-1433-80"`
normalizes to a candidate list whose first element is `"0002-1433-80"`
itself. -/
theorem c8_witness :
    ("0002-1433-80" : String) ≠ "" ∧
    (normalizeNdc "0002-1433-80").head? = some (pyStrip "0002-1433-80") ∧
    pyStrip "0002-1433-80" = "0002-1433-80" :=
  ⟨by decide, c8_literal_first "0002-1433-80" (by decide), by decide⟩

/-! ## Claims about the query builder (C4, C5) -/

/-- With only `drug` truthy, `_build_search` returns exactly the drug
clause. -/
theorem buildSearch_drug_only (d : String) (hd : d ≠ "") (exact : Bool) :
    buildSearch (some d) none none none none exact = drugClause d exact := by
  have h2 : truthy (some d) = true := by simp [truthy, hd]
  simp [buildSearch, nonNdcSearch, truthy, h2, hd, additionalFilters, optAtom, joinSep]

/-- C4 (counterexample): in `MCPServer.get_drug_indications` of
openfda_server, the `exact_match=true` search query OR-joins only two
`.exact` atoms — `openfda.substance_name` never occurs in it — so the drug
clause does not cover exactly three fields there. -/
theorem c4_counterexample :
    serverSearchQuery "aspirin" true =
      "openfda.brand_name.exact:\"aspirin\" OR openfda.generic_name.exact:\"aspirin\"" ∧
    hasSubstr "openfda.substance_name".data (serverSearchQuery "aspirin" true).data = false := by
  decide

/-- C4 (amended): in `_build_search` the drug clause OR-joins atoms over
exactly the three fields brand name, generic name and substance name, with
the `.exact` suffix exactly when `exact_match` is true; in
`MCPServer.get_drug_indications` of openfda_server this holds for the
non-exact query (three plain atoms), but the `exact_match=true` query
OR-joins only two `.exact` atoms, over brand name and generic name. -/
theorem c4_amended (d : String) (hd : d ≠ "") :
    (buildSearch (some d) none none none none false =
      "(openfda.brand_name:\"" ++ d ++ "\" OR openfda.generic_name:\"" ++ d ++
        "\" OR openfda.substance_name:\"" ++ d ++ "\")") ∧
    (buildSearch (some d) none none none none true =
      "(openfda.brand_name.exact:\"" ++ d ++ "\" OR openfda.generic_name.exact:\"" ++ d ++
        "\" OR openfda.substance_name.exact:\"" ++ d ++ "\")") ∧
    (serverSearchQuery d false =
      "openfda.brand_name:\"" ++ d ++ "\" OR openfda.generic_name:\"" ++ d ++
        "\" OR openfda.substance_name:\"" ++ d ++ "\"") ∧
    (serverSearchQuery d true =
      "openfda.brand_name.exact:\"" ++ d ++
        "\" OR openfda.generic_name.exact:\"" ++ d ++ "\"") := by
  refine ⟨?_, ?_, rfl, rfl⟩
  · rw [buildSearch_drug_only d hd false]
    simp only [drugClause, drugFields, drugAtom, List.map, Bool.false_eq_true, if_false,
      joinSep, String.append_assoc]
    rfl
  · rw [buildSearch_drug_only d hd true]
    simp only [drugClause, drugFields, drugAtom, List.map, if_true, joinSep,
      String.append_assoc]
    rfl

/-- C4 (witness): the amended theorem instantiated at `"aspirin"`. -/
theorem c4_amended_witness :
    (buildSearch (some "aspirin") none none none none false =
      "(openfda.brand_name:\"" ++ "aspirin" ++ "\" OR openfda.generic_name:\"" ++ "aspirin" ++
        "\" OR openfda.substance_name:\"" ++ "aspirin" ++ "\")") ∧
    (buildSearch (some "aspirin") none none none none true =
      "(openfda.brand_name.exact:\"" ++ "aspirin" ++
        "\" OR openfda.generic_name.exact:\"" ++ "aspirin" ++
        "\" OR openfda.substance_name.exact:\"" ++ "aspirin" ++ "\")") ∧
    (serverSearchQuery "aspirin" false =
      "openfda.brand_name:\"" ++ "aspirin" ++ "\" OR openfda.generic_name:\"" ++ "aspirin" ++
        "\" OR openfda.substance_name:\"" ++ "aspirin" ++ "\"") ∧
    (serverSearchQuery "aspirin" true =
      "openfda.brand_name.exact:\"" ++ "aspirin" ++
        "\" OR openfda.generic_name.exact:\"" ++ "aspirin" ++ "\"") :=
  c4_amended "aspirin" (by decide)

/-- C5: when both `ndc` and `drug` are truthy, `_build_search` AND-joins the
parenthesized NDC OR-clause with the parenthesized drug OR-clause (followed
by any simple filter atoms); with no other filters the result is literally
`ndc clause ++ " AND " ++ drug clause` — neither clause replaces or
suppresses the other. -/
theorem c5_strict_intersection (n d : String) (hn : n ≠ "") (hd : d ≠ "")
    (m df r : Option String) (exact : Bool) :
    (buildSearch (some d) m df r (some n) exact =
      joinSep " AND " (ndcClause (normalizeNdc n) :: drugClause d exact ::
        additionalFilters m df r)) ∧
    (buildSearch (some d) none none none (some n) exact =
      ndcClause (normalizeNdc n) ++ " AND " ++ drugClause d exact) := by
  have h1 : truthy (some n) = true := by simp [truthy, hn]
  have h2 : truthy (some d) = true := by simp [truthy, hd]
  have h3 : (normalizeNdc n).isEmpty = false := by
    cases hcase : normalizeNdc n with
    | nil => exact absurd hcase (normalizeNdc_ne_nil n hn)
    | cons a l => rfl
  constructor
  · simp [buildSearch, h1, h2, h3]
  · simp [buildSearch, h1, h2, h3, additionalFilters, optAtom, joinSep]

/-- C5 (witness): both filters set concretely — the NDC clause over the
candidates of `"0002143380"` is AND-joined with the drug clause for
`"aspirin"`. -/
theorem c5_witness :
    (buildSearch (some "aspirin") none none none (some "0002143380") false =
      joinSep " AND " (ndcClause (normalizeNdc "0002143380") ::
        drugClause "aspirin" false :: additionalFilters none none none)) ∧
    (buildSearch (some "aspirin") none none none (some "0002143380") false =
      ndcClause (normalizeNdc "0002143380") ++ " AND " ++ drugClause "aspirin" false) :=
  c5_strict_intersection "0002143380" "aspirin" (by decide) (by decide) none none none false

/-! ## Claims about the upstream client and handlers (C3, C7, C9, C10) -/

/-- C3 (counterexample): in `MCPServer.get_drug_indications` of
openfda_server, an upstream 404 raises via `raise_for_status` and is
surfaced as an `Error: ...` text payload — not as an empty result list, and
not as the normal zero-result message. -/
theorem c3_counterexample :
    (serverGetDrugIndications ⟨some "aspirin", some 3, some false⟩
        (.reply 404 (some []))).snd =
      ⟨[⟨"text", "Error: " ++ statusErrorMessage 404⟩]⟩ ∧
    (serverGetDrugIndications ⟨some "aspirin", some 3, some false⟩
        (.reply 404 (some []))).snd.content.map TextContent.text ≠
      [noResultsText "aspirin"] := by
  constructor
  · rfl
  · decide

/-- C3 (amended): in openfda_mcp_server an upstream 404 is rewritten by the
fetch helper to an empty `results` body, so `get_drug_indications` and every
section tool return an empty result list, never an error; but in
`MCPServer.get_drug_indications` of openfda_server a 404 raises via
`raise_for_status` and is returned as an `Error: ...` text payload. -/
theorem c3_amended (results : Option (List DrugRecord)) (args : ServerArgs)
    (h : pyStrip (args.drug_name.getD "") ≠ "") :
    fetchOpenfdaWithLogging (.reply 404 results) = .ok ⟨some []⟩ ∧
    mcpGetDrugIndications (.reply 404 results) = .ok [] ∧
    (∀ s, mcpSimpleTool s (.reply 404 results) = .ok []) ∧
    (serverGetDrugIndications args (.reply 404 results)).snd =
      ⟨[⟨"text", "Error: " ++ statusErrorMessage 404⟩]⟩ := by
  refine ⟨rfl, rfl, fun s => rfl, ?_⟩
  unfold serverGetDrugIndications
  rw [if_neg h]
  simp [runFetch]

/-- C3 (witness): the amended theorem at a concrete 404 reply, with the
universally quantified section tool instantiated at `"description"`. -/
theorem c3_amended_witness :
    fetchOpenfdaWithLogging (.reply 404 (some [])) = .ok ⟨some []⟩ ∧
    mcpGetDrugIndications (.reply 404 (some [])) = .ok [] ∧
    mcpSimpleTool "description" (.reply 404 (some [])) = .ok [] ∧
    (serverGetDrugIndications ⟨some "aspirin", some 3, some false⟩
        (.reply 404 (some []))).snd =
      ⟨[⟨"text", "Error: " ++ statusErrorMessage 404⟩]⟩ := by
  have h := c3_amended (some []) ⟨some "aspirin", some 3, some false⟩ (by decide)
  exact ⟨h.1, h.2.1, h.2.2.1 "description", h.2.2.2⟩

/-- C7 (counterexample): `MCPServer.get_drug_indications` of openfda_server
computes `min(limit, 10)` with no lower clamp, so the integer argument `0`
is sent upstream as limit `0`, which is not within 1..10. -/
theorem c7_counterexample :
    ((serverGetDrugIndications ⟨some "aspirin", some 0, some false⟩
        (.reply 200 (some []))).fst.map Params.limit) = some 0 ∧
    ¬ (1 ≤ (0 : Int)) := by decide

/-- C7 (amended): the openfda_mcp_server handlers re-clamp `limit` into
1..10 via `max(1, min(limit, 10))` for every integer argument, while
`MCPServer.get_drug_indications` of openfda_server only caps the upper end:
every limit it sends upstream is at most 10, but values below 1 pass
through. -/
theorem c7_amended (limit : Int) (drug m df r ndc : Option String) (exact : Bool)
    (args : ServerArgs) (up : Upstream) (p : Params)
    (hp : (serverGetDrugIndications args up).fst = some p) :
    1 ≤ (mcpSentParams drug m df r ndc limit exact).limit ∧
    (mcpSentParams drug m df r ndc limit exact).limit ≤ 10 ∧
    p.limit ≤ 10 := by
  refine ⟨le_max_left 1 _, max_le (by norm_num) (min_le_right _ _), ?_⟩
  unfold serverGetDrugIndications at hp
  by_cases h : pyStrip (args.drug_name.getD "") = ""
  · rw [if_pos h] at hp
    exact absurd hp (by simp)
  · rw [if_neg h] at hp
    simp only [Option.some.injEq] at hp
    rw [← hp]
    exact min_le_right _ _

/-- C7 (witness): the amended theorem at the integer argument 5 and a
concrete openfda_server invocation that issues an upstream request. -/
theorem c7_amended_witness :
    1 ≤ (mcpSentParams none none none none none 5 false).limit ∧
    (mcpSentParams none none none none none 5 false).limit ≤ 10 ∧
    (⟨serverSearchQuery (pyStrip "aspirin") false, 5⟩ : Params).limit ≤ 10 :=
  c7_amended 5 none none none none none false ⟨some "aspirin", some 5, some false⟩
    (.reply 200 (some [])) ⟨serverSearchQuery (pyStrip "aspirin") false, 5⟩ (by decide)

/-- The `out.extend(...)` loop of `make_simple_tool` is a fold that appends
each record's section onto the accumulator. -/
theorem foldl_extend (f : DrugRecord → List String) :
    ∀ (l : List DrugRecord) (init : List String),
      l.foldl (fun out r => out ++ f r) init = init ++ (l.map f).flatten
  | [], init => by simp
  | r :: rest, init => by
    simp [List.foldl_cons, foldl_extend f rest]

/-- C9: for every section-extraction tool (the six `make_simple_tool`
instances) and every successfully parsed upstream response, the tool result
is the concatenation of the named top-level array of each returned record,
flattened in record order into one single ordered list of strings. -/
theorem c9_flatten (sectionName : String) (_hs : sectionName ∈ simpleSections)
    (results : Option (List DrugRecord)) :
    mcpSimpleTool sectionName (Upstream.reply 200 results) =
      .ok (((results.getD []).map (fun r => r.getSection sectionName)).flatten) := by
  cases results with
  | none => simp [mcpSimpleTool, Except.map, fetchOpenfdaWithLogging, simpleToolShape]
  | some recs =>
    cases recs with
    | nil => simp [mcpSimpleTool, Except.map, fetchOpenfdaWithLogging, simpleToolShape]
    | cons a l =>
      simp [mcpSimpleTool, Except.map, fetchOpenfdaWithLogging, simpleToolShape,
        foldl_extend (fun r => r.getSection sectionName) (a :: l) []]

/-- C9 (witness): the `description` tool flattens the `description` arrays
of two records into one ordered list. -/
theorem c9_flatten_witness :
    mcpSimpleTool "description"
        (Upstream.reply 200 (some
          [⟨none, none, none, none, [("description", ["a", "b"])]⟩,
           ⟨none, none, none, none, [("description", ["c"])]⟩])) =
      .ok ["a", "b", "c"] :=
  (c9_flatten "description" (by decide) _).trans rfl

/-- C10: whenever `drug_name` is absent or trims to the empty string,
`MCPServer.get_drug_indications` of openfda_server returns the
required-parameter error as a normal (successful) tool result with a single
text content item, issues no upstream HTTP request (the request component is
`none` whatever the upstream would have answered), and raises nothing (the
branch returns before the `try` block). -/
theorem c10_required_param (args : ServerArgs) (up : Upstream)
    (h : pyStrip (args.drug_name.getD "") = "") :
    serverGetDrugIndications args up =
      (none, ⟨[⟨"text", "Error: drug_name parameter is required"⟩]⟩) := by
  unfold serverGetDrugIndications
  rw [if_pos h]

/-- C10 (witness): the theorem at an absent `drug_name` and at a
whitespace-only one. -/
theorem c10_required_param_witness :
    serverGetDrugIndications ⟨none, none, none⟩ (.reply 200 (some [])) =
      (none, ⟨[⟨"text", "Error: drug_name parameter is required"⟩]⟩) ∧
    serverGetDrugIndications ⟨some "   ", some 3, some false⟩ (.raise "timeout") =
      (none, ⟨[⟨"text", "Error: drug_name parameter is required"⟩]⟩) :=
  ⟨c10_required_param ⟨none, none, none⟩ (.reply 200 (some [])) (by decide),
   c10_required_param ⟨some "   ", some 3, some false⟩ (.raise "timeout") (by decide)⟩

/-! ## Claims about the JSON-RPC dispatcher (C2) -/

/-- C2 (counterexample): a notification (`id` absent) does produce a
JSON-RPC response object from `handle_message`: a `tools/call` notification
whose processing raises an exception yields a `-32603` response with a null
`id`, and a notification with an unrecognized method yields a `-32601`
response with a null `id`. -/
theorem c2_counterexample :
    handleMessage ⟨none, some "tools/call", some "get_drug_indications"⟩ (.raised "boom") =
      some ⟨none, .error ⟨-32603, "Internal error: boom"⟩⟩ ∧
    handleMessage ⟨none, some "notifications/cancelled", none⟩ (.value ⟨[]⟩) =
      some ⟨none, .error ⟨-32601, "Method not found: notifications/cancelled"⟩⟩ :=
  ⟨rfl, rfl⟩

/-- C2 (amended): `handle_message` produces no JSON-RPC response object
exactly for messages whose method is `notifications/initialized`; every
other message — including one with `id` absent whose method is unknown or
whose `tools/call` processing raises an exception — produces a response
object (echoing `message.get("id")`, i.e. a null `id` for notifications). -/
theorem c2_amended (msg : RpcMessage) (callOutcome : ToolOutcome) :
    handleMessage msg callOutcome = none ↔
      msg.method = some "notifications/initialized" := by
  by_cases hm : msg.method = some "notifications/initialized"
  · simp [handleMessage, hm]
  · simp only [hm, iff_false]
    unfold handleMessage
    split_ifs with h1 h2 h3 h4
    · simp
    · simp
    · cases callOutcome <;> simp
    · simp
    · simp

/-- C2 (witness): the amended theorem at a concrete
`notifications/initialized` notification, which indeed yields no
response. -/
theorem c2_amended_witness :
    handleMessage ⟨none, some "notifications/initialized", none⟩ (.value ⟨[]⟩) = none :=
  (c2_amended ⟨none, some "notifications/initialized", none⟩ (.value ⟨[]⟩)).mpr rfl

end OpenFDA
